import Mathlib

/-!
Shallow embedding of the db_report_agents coordinator (coordinator.py) and the
retrieval agent (agents/retrieval_agents.py), with theorems checking the
natural-language specification against the code.

Python values flowing through the coordinator are modelled by `JVal`, a
JSON-like value type extended with a constructor for fastmcp
`CallToolResult` objects (which carry a `structured_content` payload).
-/

/-- Python/JSON values as handled by the coordinator.  `ctr sc` models a
fastmcp `CallToolResult` object whose `structured_content` is `sc`. -/
inductive JVal where
  | null
  | bool (b : Bool)
  | num (n : Int)
  | str (s : String)
  | arr (xs : List JVal)
  | obj (fields : List (String × JVal))
  | ctr (sc : JVal)

/-- Python truthiness (`bool(v)`): `None`, `False`, `0`, `""`, `[]`, `{}` are
falsy; every other value (including a `CallToolResult` object) is truthy. -/
def truthy : JVal → Bool
  | .null => false
  | .bool b => b
  | .num n => n != 0
  | .str s => s != ""
  | .arr xs => !xs.isEmpty
  | .obj fs => !fs.isEmpty
  | .ctr _ => true

/-- Python `k in d` for a dict `d`. -/
def hasKey (d : List (String × JVal)) (k : String) : Bool :=
  d.any (fun p => p.1 == k)

/-- Python `d.get(k, default)`: the first binding of `k`, else the default. -/
def pyGet (d : List (String × JVal)) (k : String) (default : JVal) : JVal :=
  match d.find? (fun p => p.1 == k) with
  | some p => p.2
  | none => default

/-- Python `v == s` for a string literal `s`: true exactly when `v` is the
string `s` (equality with a non-string value is `False`). -/
def isStr (v : JVal) (s : String) : Bool :=
  match v with
  | .str t => t == s
  | _ => false

/-- Tests whether a value is a Python `list`. -/
def isArrB : JVal → Bool
  | .arr _ => true
  | _ => false

/-- Python `resp.structured_content if isinstance(resp, CallToolResult) else
resp`, the passthrough used by the query and report branches. -/
def structuredOrSelf : JVal → JVal
  | .ctr sc => sc
  | v => v

mutual

/-- Python `repr` of a value, as interpolated by f-strings in coordinator.py
(dicts print as \x7b\x27key\x27: value\x7d, strings with single quotes). -/
def pyRepr : JVal → String
  | .null => "None"
  | .bool true => "True"
  | .bool false => "False"
  | .num n => toString n
  | .str s => "\x27" ++ s ++ "\x27"
  | .arr xs => "[" ++ pyReprList xs ++ "]"
  | .obj fs => "\x7b" ++ pyReprFields fs ++ "\x7d"
  | .ctr sc => "CallToolResult(" ++ pyRepr sc ++ ")"

def pyReprList : List JVal → String
  | [] => ""
  | [x] => pyRepr x
  | x :: y :: xs => pyRepr x ++ ", " ++ pyReprList (y :: xs)

def pyReprFields : List (String × JVal) → String
  | [] => ""
  | [p] => "\x27" ++ p.1 ++ "\x27: " ++ pyRepr p.2
  | p :: q :: fs => "\x27" ++ p.1 ++ "\x27: " ++ pyRepr p.2 ++ ", " ++ pyReprFields (q :: fs)

end

/-- Python `len(v)`: defined for lists, dicts and strings, a `TypeError` for
anything else (including `None`, numbers and `CallToolResult` objects). -/
def pyLen (v : JVal) : Except String Nat :=
  match v with
  | .arr xs => .ok xs.length
  | .obj fs => .ok fs.length
  | .str s => .ok s.length
  | _ => .error "TypeError: object has no len()"

/-- Python `k in v` for a string `k`: key test on dicts, element test on
lists, substring test on strings, `TypeError` otherwise. -/
def pyContains (v : JVal) (k : String) : Except String Bool :=
  match v with
  | .obj fs => .ok (hasKey fs k)
  | .arr xs => .ok (xs.any (fun x => isStr x k))
  | .str s => .ok (k == "" || (s.splitOn k).length != 1)
  | _ => .error "TypeError: argument is not iterable"

/-- Embedding of coordinator.py `unwrap_rows` (lines 45-59): the response
normalizer.  A `CallToolResult` is inspected through its structured content
(`rows` key first, then `result` when it is a list, then the content itself
when it is a list); a plain dict goes through the Python expression
`resp.get("rows") or resp.get("result", [])`; a plain list is returned
as-is; everything else yields `[]`. -/
def unwrap_rows (resp : JVal) : JVal :=
  match resp with
  | .ctr sc =>
      match sc with
      | .obj d =>
          if hasKey d "rows" then pyGet d "rows" .null
          else if hasKey d "result" && isArrB (pyGet d "result" .null) then
            pyGet d "result" .null
          else .arr []
      | .arr xs => .arr xs
      | _ => .arr []
  | .obj d =>
      let r := pyGet d "rows" .null
      if truthy r then r else pyGet d "result" (.arr [])
  | .arr xs => .arr xs
  | _ => .arr []

/-- The sentinel routing decision returned by `interpret_with_llm` when
`json.loads` raises on the model output (coordinator.py line 83). -/
def sentinelDecision : JVal :=
  .obj [("tool", .str "none"), ("args", .obj []), ("error", .str "無法解析需求")]

/-- Embedding of coordinator.py `interpret_with_llm` (lines 62-83).  The
model reply text together with `json.loads` is abstracted by its parse
outcome: `none` when `json.loads` raises (malformed JSON), `some v` when it
parses to the value `v`.  Only a parse exception is caught; a successfully
parsed value is returned unchanged. -/
def interpret_with_llm (parsed : Option JVal) : JVal :=
  match parsed with
  | some v => v
  | none => sentinelDecision

/-- The two remote agent services the coordinator talks to
(`RETRIEVAL_URL` and `REPORT_URL`). -/
inductive Target where
  | retrieval
  | reporting
deriving DecidableEq

/-- One outbound `call_tool` invocation: target service, operation name and
argument value. -/
structure Call where
  target : Target
  op : String
  args : JVal

/-- The remote environment: the reply each completed `call_tool` invocation
returns.  Transport failures raise out of `process_request` unchanged and
are therefore outside this model, which only covers calls that complete. -/
structure Env where
  call : Target → String → JVal → JVal

/-- The fixed CSV ingestion path (coordinator.py line 28). -/
def CSV_PATH : String := "sample.csv"

/-- Number of calls addressed to the reporting agent in a trace. -/
def reportingCalls (tr : List Call) : Nat :=
  (tr.filter (fun c => c.target = Target.reporting)).length

/-- Embedding of coordinator.py `process_request` (lines 86-127), returning
the reply envelope together with the trace of outbound agent calls, or
`Except.error` when the Python code would raise (e.g. `plan.get` on a
non-dict plan, `len(rows)` on an unsized value, item assignment on a
non-dict `args`). -/
def process_request (env : Env) (parsed : Option JVal) (prompt : String) :
    Except String (JVal × List Call) :=
  let plan := interpret_with_llm parsed
  match plan with
  | .obj d =>
      let tool := pyGet d "tool" .null
      let args := pyGet d "args" (.obj [])
      if isStr tool "ingest_csv" then
        let a : JVal := .obj [("path", .str CSV_PATH)]
        let result := env.call .retrieval "ingest_csv" a
        .ok (.obj [("status", .str "ok"), ("message", result)],
             [⟨.retrieval, "ingest_csv", a⟩])
      else if isStr tool "query_db" then
        match pyContains args "prompt" with
        | .error e => .error e
        | .ok true =>
            let resp := env.call .retrieval "query_db" args
            .ok (structuredOrSelf resp, [⟨.retrieval, "query_db", args⟩])
        | .ok false =>
            match args with
            | .obj ad =>
                let a : JVal := .obj (ad ++ [("prompt", .str prompt)])
                let resp := env.call .retrieval "query_db" a
                .ok (structuredOrSelf resp, [⟨.retrieval, "query_db", a⟩])
            | _ => .error "TypeError: object does not support item assignment"
      else if isStr tool "list_returns" then
        let resp := env.call .retrieval "list_returns" args
        let rows := unwrap_rows resp
        match pyLen rows with
        | .error e => .error e
        | .ok _ =>
            .ok (.obj [("status", .str "ok"), ("rows", rows)],
                 [⟨.retrieval, "list_returns", args⟩])
      else if isStr tool "generate_report" then
        let a : JVal := .obj [("limit", .num 500)]
        let resp := env.call .retrieval "list_returns" a
        let rows := unwrap_rows resp
        if truthy rows then
          let ra : JVal := .obj [("rows", rows)]
          let rep := env.call .reporting "generate_excel_report" ra
          .ok (structuredOrSelf rep,
               [⟨.retrieval, "list_returns", a⟩,
                ⟨.reporting, "generate_excel_report", ra⟩])
        else
          .ok (.obj [("status", .str "error"),
                     ("message", .str "無資料，無法生成報表")],
               [⟨.retrieval, "list_returns", a⟩])
      else
        .ok (.obj [("status", .str "error"),
                   ("message", .str ("未知的任務: " ++ pyRepr plan))], [])
  | _ => .error "AttributeError: object has no attribute get"

/-- Embedding of retrieval_agents.py `query_db` (lines 125-140).  The lazily
built SQLDatabaseChain is abstracted by `chainAvailable` (whether
`get_db_chain` returned a chain) and the `chain.invoke(prompt)` outcome by
`invokeResult` (`Except.error e` when it raises with message `e`).  Note the
error envelopes carry the key `error`, not `message`. -/
def query_db (chainAvailable : Bool) (invokeResult : Except String JVal)
    (prompt : String) : JVal :=
  if chainAvailable = false then
    .obj [("status", .str "error"), ("error", .str "SQLDatabaseChain 未初始化成功")]
  else
    match invokeResult with
    | .ok result =>
        .obj [("status", .str "ok"), ("prompt", .str prompt), ("result", result)]
    | .error e => .obj [("status", .str "error"), ("error", .str e)]

/-- One parsed CSV record of retrieval_agents.py `ingest_csv`: `order_id` is
`none` when the record has no usable `order_id` value (the column is absent,
so `row.get` falls back to the per-row generated identifier). -/
structure CsvRecord where
  order_id : Option String
  product : String
  store : String
  date : String
deriving DecidableEq

/-- One row of the `returns` table (columns inserted by `ingest_csv`). -/
structure RowRec where
  order_id : String
  product : String
  store : String
  date : String
deriving DecidableEq

/-- The row inserted for one CSV record: a present `order_id` is kept, an
absent one is replaced by the freshly generated identifier
`str(uuid.uuid4())[:8]` (retrieval_agents.py line 106). -/
def rowOfRecord (fresh : String) (r : CsvRecord) : RowRec :=
  ⟨(match r.order_id with | some s => s | none => fresh),
   r.product, r.store, r.date⟩

/-- The insertion loop of `ingest_csv` (`for _, row in df.iterrows()`),
inserting record `i` with the freshly generated identifier `fresh i`. -/
def insertRows (fresh : Nat → String) (i : Nat) : List CsvRecord → List RowRec
  | [] => []
  | r :: rs => rowOfRecord (fresh i) r :: insertRows fresh (i + 1) rs

/-- Embedding of retrieval_agents.py `ingest_csv` (lines 74-122) as a state
transformer on the `returns` table.  `pathExists` models
`os.path.exists(path)`, `readResult` the `pd.read_csv` outcome, and
`fresh i` the random identifier generated while inserting record `i`.  On
any error the transaction is not committed, so the table is unchanged; on
success the old rows are deleted (`DELETE FROM returns`) and one row per CSV
record is inserted. -/
def ingest_csv (pathExists : Bool) (readResult : Except String (List CsvRecord))
    (fresh : Nat → String) (table : List RowRec) : List RowRec × JVal :=
  if pathExists = false then
    (table, .obj [("status", .str "error"), ("error", .str "CSV 檔案不存在: sample.csv")])
  else
    match readResult with
    | .error e => (table, .obj [("status", .str "error"), ("error", .str e)])
    | .ok csv =>
        (insertRows fresh 0 csv,
         .obj [("status", .str "ok"), ("rows_inserted", .num csv.length)])

/-- Embedding of the startup reconciliation `init_db` in coordinator.py
(lines 178-199), returning the trace of outbound agent calls it performs.
`storeCount` abstracts the `SELECT COUNT(*) FROM returns` query:
`Except.error` when connecting or querying raises (in which case the code
proceeds with `count = 0`).  The ingestion call itself is wrapped in
try/except, so its outcome does not affect the trace. -/
def init_db (storeCount : Except String Nat) : List Call :=
  let count := match storeCount with
    | .ok n => n
    | .error _ => 0
  if count > 0 then []
  else [⟨Target.retrieval, "ingest_csv", .obj [("path", .str CSV_PATH)]⟩]

/-- Number of ingestion-tool invocations in a trace. -/
def ingestCalls (tr : List Call) : Nat :=
  (tr.filter (fun c => c.op == "ingest_csv")).length

/-- Status field of an envelope is the string "error". -/
def hasStatusError (v : JVal) : Bool :=
  match v with
  | .obj d => isStr (pyGet d "status" .null) "error"
  | _ => false

/-- Envelope carries a string-valued `message` field. -/
def hasStrMessage (v : JVal) : Bool :=
  match v with
  | .obj d => (match pyGet d "message" .null with | .str _ => true | _ => false)
  | _ => false

/-- Modelled from the spec, §4.2 resolution order exactly as written there:
step 1 returns a structured payload value under key `rows` as-is, step 2
returns the `result` value only when it is a sequence, step 3 returns the
structured payload itself when it is a sequence, step 4 repeats steps 1-2
against a plain mapping, step 5 returns a plain sequence, step 6 returns the
empty sequence. -/
def normalize_spec (reply : JVal) : JVal :=
  match reply with
  | .ctr sc =>
      match sc with
      | .obj d =>
          if hasKey d "rows" then pyGet d "rows" .null
          else if hasKey d "result" && isArrB (pyGet d "result" .null) then
            pyGet d "result" .null
          else .arr []
      | .arr xs => .arr xs
      | _ => .arr []
  | .obj d =>
      if hasKey d "rows" then pyGet d "rows" .null
      else if hasKey d "result" && isArrB (pyGet d "result" .null) then
        pyGet d "result" .null
      else .arr []
  | .arr xs => .arr xs
  | _ => .arr []

/-- Modelled from the amended claim wording: the §4.2 resolution order with
step 4 replaced by what the code does on a plain mapping — return the `rows`
value when it is truthy, otherwise the `result` value when the key is
present (without checking that it is a sequence), otherwise the empty
sequence. -/
def normalize_amended (reply : JVal) : JVal :=
  match reply with
  | .ctr sc =>
      match sc with
      | .obj d =>
          if hasKey d "rows" then pyGet d "rows" .null
          else if hasKey d "result" && isArrB (pyGet d "result" .null) then
            pyGet d "result" .null
          else .arr []
      | .arr xs => .arr xs
      | _ => .arr []
  | .obj d =>
      if truthy (pyGet d "rows" .null) then pyGet d "rows" .null
      else pyGet d "result" (.arr [])
  | .arr xs => .arr xs
  | _ => .arr []

/-- C1 counterexample: the oracle output `"\x7b\x7d"` parses as the empty
JSON object, which lacks the `tool` key, yet `interpret_with_llm` returns it
unchanged rather than the sentinel decision: only a `json.loads` exception
is caught. -/
theorem route_missing_tool_key_not_sentinel :
    interpret_with_llm (some (JVal.obj [])) = JVal.obj [] ∧
    hasKey ([] : List (String × JVal)) "tool" = false ∧
    interpret_with_llm (some (JVal.obj [])) ≠ sentinelDecision := by
  refine ⟨rfl, rfl, ?_⟩
  simp [interpret_with_llm, sentinelDecision]

/-- C1 amended: `interpret_with_llm` never raises; when `json.loads` raises
on the oracle output it returns the sentinel decision with tool `"none"`,
empty args and an error field, and when the output parses it returns the
parsed value unchanged, even if that value lacks the `tool` key. -/
theorem route_parse_failure_sentinel :
    interpret_with_llm none = sentinelDecision ∧
    (∀ v : JVal, interpret_with_llm (some v) = v) ∧
    sentinelDecision =
      JVal.obj [("tool", JVal.str "none"), ("args", JVal.obj []),
                ("error", JVal.str "無法解析需求")] :=
  ⟨rfl, fun _ => rfl, rfl⟩

/-- C3 counterexample: the plain mapping `\x7b"result": "boom"\x7d` is one
of the enumerated AgentReply shapes (a raw mapping) whose `result` value is
not a sequence, so §4.2 yields the empty sequence, but `unwrap_rows` returns
the string `"boom"` (the dict branch has no sequence check). -/
theorem unwrap_rows_result_nonlist_passthrough :
    unwrap_rows (JVal.obj [("result", JVal.str "boom")]) = JVal.str "boom" ∧
    normalize_spec (JVal.obj [("result", JVal.str "boom")]) = JVal.arr [] ∧
    JVal.str "boom" ≠ JVal.arr [] := by
  refine ⟨rfl, rfl, ?_⟩
  simp

/-- C3 amended: `unwrap_rows` is total and never raises, and it agrees
everywhere with the §4.2 resolution order amended on plain mappings to the
or-semantics of the code: `rows` value when truthy, else `result` value when
present (no sequence check), else the empty sequence; for `None`, error
envelopes and all unrecognized shapes this still yields the empty
sequence. -/
theorem unwrap_rows_total_characterization (reply : JVal) :
    unwrap_rows reply = normalize_amended reply := by
  cases reply with
  | ctr sc => cases sc <;> rfl
  | obj d =>
      simp only [unwrap_rows, normalize_amended]
  | _ => rfl

/-- C4 counterexample: a plain mapping whose `rows` value is the empty list
(falsy) and whose `result` is a one-element list: §4.2 step 1 returns the
`rows` value as-is (the empty sequence), but the code's
`resp.get("rows") or resp.get("result", [])` falls through and returns the
`result` list. -/
theorem unwrap_rows_falsy_rows_fallthrough :
    unwrap_rows (JVal.obj [("rows", JVal.arr []), ("result", JVal.arr [JVal.num 1])]) =
      JVal.arr [JVal.num 1] ∧
    normalize_spec (JVal.obj [("rows", JVal.arr []), ("result", JVal.arr [JVal.num 1])]) =
      JVal.arr [] ∧
    JVal.arr [JVal.num 1] ≠ JVal.arr [] := by
  refine ⟨rfl, rfl, ?_⟩
  simp

/-- When a key is absent from a dict, `find?` on that key returns `none`. -/
theorem find_none_of_hasKey_false (d : List (String × JVal)) (k : String)
    (h : hasKey d k = false) : d.find? (fun p => p.1 == k) = none := by
  rw [List.find?_eq_none]
  intro p hp hpe
  have htrue : hasKey d k = true := by
    simp only [hasKey, List.any_eq_true]
    exact ⟨p, hp, hpe⟩
  rw [htrue] at h
  simp at h

/-- C4 amended: on a plain mapping `unwrap_rows` returns the `rows` value
when that value is truthy; otherwise it returns the `result` value when the
key is present (with no check that it is a sequence), defaulting to the
empty sequence when both are missing. -/
theorem unwrap_rows_mapping_or_semantics (d : List (String × JVal)) :
    (truthy (pyGet d "rows" JVal.null) = true →
      unwrap_rows (JVal.obj d) = pyGet d "rows" JVal.null) ∧
    (truthy (pyGet d "rows" JVal.null) = false →
      unwrap_rows (JVal.obj d) = pyGet d "result" (JVal.arr [])) ∧
    (hasKey d "rows" = false → hasKey d "result" = false →
      unwrap_rows (JVal.obj d) = JVal.arr []) := by
  refine ⟨fun h => ?_, fun h => ?_, fun h1 h2 => ?_⟩
  · simp [unwrap_rows, h]
  · simp [unwrap_rows, h]
  · have hr : pyGet d "rows" JVal.null = JVal.null := by
      simp only [pyGet, find_none_of_hasKey_false d "rows" h1]
    have hs : pyGet d "result" (JVal.arr []) = JVal.arr [] := by
      simp only [pyGet, find_none_of_hasKey_false d "result" h2]
    simp [unwrap_rows, hr, hs, truthy]

/-- C4 amended witness: the three cases of `unwrap_rows_mapping_or_semantics`
evaluated on concrete mappings. -/
theorem unwrap_rows_mapping_or_semantics_witness :
    unwrap_rows (JVal.obj [("rows", JVal.arr [JVal.null])]) =
      pyGet [("rows", JVal.arr [JVal.null])] "rows" JVal.null ∧
    unwrap_rows (JVal.obj [("rows", JVal.arr []), ("result", JVal.num 5)]) =
      pyGet [("rows", JVal.arr []), ("result", JVal.num 5)] "result" (JVal.arr []) ∧
    unwrap_rows (JVal.obj []) = JVal.arr [] :=
  ⟨(unwrap_rows_mapping_or_semantics _).1 rfl,
   (unwrap_rows_mapping_or_semantics _).2.1 rfl,
   (unwrap_rows_mapping_or_semantics _).2.2 rfl rfl⟩

/-- C2: when the routed tool is `generate_report` and normalizing the
retrieval agent reply to `list_returns` (called with limit 500) gives the
empty sequence, `process_request` short-circuits with the error envelope
and its trace contains no call to the reporting agent. -/
theorem report_empty_rows_short_circuit
    (env : Env) (parsed : Option JVal) (prompt : String)
    (d : List (String × JVal))
    (hplan : interpret_with_llm parsed = JVal.obj d)
    (htool : pyGet d "tool" JVal.null = JVal.str "generate_report")
    (hrows : unwrap_rows (env.call Target.retrieval "list_returns"
        (JVal.obj [("limit", JVal.num 500)])) = JVal.arr []) :
    process_request env parsed prompt =
      Except.ok (JVal.obj [("status", JVal.str "error"),
                           ("message", JVal.str "無資料，無法生成報表")],
                 [⟨Target.retrieval, "list_returns",
                   JVal.obj [("limit", JVal.num 500)]⟩]) ∧
    reportingCalls [⟨Target.retrieval, "list_returns",
                     JVal.obj [("limit", JVal.num 500)]⟩] = 0 := by
  refine ⟨?_, rfl⟩
  simp only [process_request, hplan]
  rw [htool, hrows]
  rfl

/-- Mock environment whose retrieval agent replies to every call with a
`CallToolResult` carrying zero rows. -/
def envNoRows : Env :=
  ⟨fun _ _ _ => JVal.ctr (JVal.obj [("rows", JVal.arr []), ("count", JVal.num 0)])⟩

/-- C2 witness: a concrete `generate_report` routing against `envNoRows`. -/
theorem report_empty_rows_short_circuit_witness :
    process_request envNoRows
      (some (JVal.obj [("tool", JVal.str "generate_report"), ("args", JVal.obj [])]))
      "產生 Excel 報表" =
      Except.ok (JVal.obj [("status", JVal.str "error"),
                           ("message", JVal.str "無資料，無法生成報表")],
                 [⟨Target.retrieval, "list_returns",
                   JVal.obj [("limit", JVal.num 500)]⟩]) ∧
    reportingCalls [⟨Target.retrieval, "list_returns",
                     JVal.obj [("limit", JVal.num 500)]⟩] = 0 :=
  report_empty_rows_short_circuit envNoRows _ _ _ rfl rfl rfl

/-- C5: when the routed tool is `list_returns` and the normalized retrieval
reply is a sequence of N rows, `process_request` returns the ok envelope
whose `rows` field is exactly that sequence of N rows. -/
theorem list_returns_ok_envelope
    (env : Env) (parsed : Option JVal) (prompt : String)
    (d : List (String × JVal)) (rs : List JVal) (N : Nat)
    (hplan : interpret_with_llm parsed = JVal.obj d)
    (htool : pyGet d "tool" JVal.null = JVal.str "list_returns")
    (hrows : unwrap_rows (env.call Target.retrieval "list_returns"
        (pyGet d "args" (JVal.obj []))) = JVal.arr rs)
    (hN : rs.length = N) :
    process_request env parsed prompt =
      Except.ok (JVal.obj [("status", JVal.str "ok"), ("rows", JVal.arr rs)],
                 [⟨Target.retrieval, "list_returns", pyGet d "args" (JVal.obj [])⟩]) ∧
    rs.length = N := by
  refine ⟨?_, hN⟩
  simp only [process_request, hplan]
  rw [htool, hrows]
  rfl

/-- Mock environment whose retrieval agent replies to every call with a
`CallToolResult` carrying three rows. -/
def envThreeRows : Env :=
  ⟨fun _ _ _ => JVal.ctr (JVal.obj
    [("rows", JVal.arr
      [JVal.obj [("order_id", JVal.str "1"), ("product", JVal.str "a"),
                 ("store", JVal.str "s"), ("date", JVal.str "d")],
       JVal.obj [("order_id", JVal.str "2"), ("product", JVal.str "b"),
                 ("store", JVal.str "s"), ("date", JVal.str "d")],
       JVal.obj [("order_id", JVal.str "3"), ("product", JVal.str "c"),
                 ("store", JVal.str "s"), ("date", JVal.str "d")]]),
     ("count", JVal.num 3)])⟩

/-- C5 witness: a concrete `list_returns` routing against `envThreeRows`. -/
theorem list_returns_ok_envelope_witness :
    process_request envThreeRows
      (some (JVal.obj [("tool", JVal.str "list_returns")])) "列出所有退貨" =
      Except.ok (JVal.obj [("status", JVal.str "ok"),
        ("rows", JVal.arr
          [JVal.obj [("order_id", JVal.str "1"), ("product", JVal.str "a"),
                     ("store", JVal.str "s"), ("date", JVal.str "d")],
           JVal.obj [("order_id", JVal.str "2"), ("product", JVal.str "b"),
                     ("store", JVal.str "s"), ("date", JVal.str "d")],
           JVal.obj [("order_id", JVal.str "3"), ("product", JVal.str "c"),
                     ("store", JVal.str "s"), ("date", JVal.str "d")]])],
                 [⟨Target.retrieval, "list_returns",
                   pyGet [("tool", JVal.str "list_returns")] "args" (JVal.obj [])⟩]) ∧
    ([JVal.obj [("order_id", JVal.str "1"), ("product", JVal.str "a"),
                ("store", JVal.str "s"), ("date", JVal.str "d")],
      JVal.obj [("order_id", JVal.str "2"), ("product", JVal.str "b"),
                ("store", JVal.str "s"), ("date", JVal.str "d")],
      JVal.obj [("order_id", JVal.str "3"), ("product", JVal.str "c"),
                ("store", JVal.str "s"), ("date", JVal.str "d")]]).length = 3 :=
  list_returns_ok_envelope envThreeRows _ _ _ _ 3 rfl rfl rfl rfl

/-- C6: when the routed tool is `query_db` and the routed args (a mapping)
lack the `prompt` key, `process_request` calls the retrieval agent's
`query_db` with the args extended by `prompt` bound to the original
instruction, the other args unchanged, and returns the agent's structured
payload unchanged with no normalization applied. -/
theorem query_prompt_default_passthrough
    (env : Env) (parsed : Option JVal) (prompt : String)
    (d ad : List (String × JVal))
    (hplan : interpret_with_llm parsed = JVal.obj d)
    (htool : pyGet d "tool" JVal.null = JVal.str "query_db")
    (hargs : pyGet d "args" (JVal.obj []) = JVal.obj ad)
    (hnp : hasKey ad "prompt" = false) :
    process_request env parsed prompt =
      Except.ok (structuredOrSelf (env.call Target.retrieval "query_db"
          (JVal.obj (ad ++ [("prompt", JVal.str prompt)]))),
        [⟨Target.retrieval, "query_db",
          JVal.obj (ad ++ [("prompt", JVal.str prompt)])⟩]) := by
  simp only [process_request, hplan]
  rw [htool, hargs]
  simp only [pyContains, hnp]
  rfl

/-- Mock environment whose retrieval agent replies to `query_db` with an
oracle-shaped payload (not a rows envelope). -/
def envOracle : Env :=
  ⟨fun _ _ a => JVal.ctr (JVal.obj
    [("status", JVal.str "ok"), ("prompt", pyGet
      (match a with | JVal.obj fs => fs | _ => []) "prompt" JVal.null),
     ("result", JVal.str "42")])⟩

/-- C6 witness: a concrete `query_db` routing whose args lack `prompt`. -/
theorem query_prompt_default_passthrough_witness :
    process_request envOracle
      (some (JVal.obj [("tool", JVal.str "query_db"),
                       ("args", JVal.obj [("limit", JVal.num 3)])]))
      "商店退貨數量" =
      Except.ok (structuredOrSelf (envOracle.call Target.retrieval "query_db"
          (JVal.obj [("limit", JVal.num 3), ("prompt", JVal.str "商店退貨數量")])),
        [⟨Target.retrieval, "query_db",
          JVal.obj [("limit", JVal.num 3), ("prompt", JVal.str "商店退貨數量")]⟩]) :=
  query_prompt_default_passthrough envOracle
    (some (JVal.obj [("tool", JVal.str "query_db"),
                     ("args", JVal.obj [("limit", JVal.num 3)])]))
    "商店退貨數量"
    [("tool", JVal.str "query_db"), ("args", JVal.obj [("limit", JVal.num 3)])]
    [("limit", JVal.num 3)] rfl rfl rfl rfl

/-- C7: when the routed decision is a mapping whose tool is not one of the
four recognized tool names (in particular `"none"` or any unrecognized
value), `process_request` returns the error envelope whose message is the
unknown-instruction text followed by the repr of the routing decision, and
performs no remote agent call (its trace is empty). -/
theorem unknown_tool_error_envelope
    (env : Env) (parsed : Option JVal) (prompt : String)
    (d : List (String × JVal))
    (hplan : interpret_with_llm parsed = JVal.obj d)
    (h1 : isStr (pyGet d "tool" JVal.null) "ingest_csv" = false)
    (h2 : isStr (pyGet d "tool" JVal.null) "query_db" = false)
    (h3 : isStr (pyGet d "tool" JVal.null) "list_returns" = false)
    (h4 : isStr (pyGet d "tool" JVal.null) "generate_report" = false) :
    process_request env parsed prompt =
      Except.ok (JVal.obj [("status", JVal.str "error"),
        ("message", JVal.str ("未知的任務: " ++ pyRepr (JVal.obj d)))], []) ∧
    reportingCalls ([] : List Call) = 0 ∧ ([] : List Call).length = 0 := by
  refine ⟨?_, rfl, rfl⟩
  simp only [process_request, hplan]
  rw [h1, h2, h3, h4]
  simp

/-- C7 witness: the sentinel decision produced by a `json.loads` failure
(tool `"none"`) routed against `envNoRows`, performing no agent call. -/
theorem unknown_tool_error_envelope_witness :
    process_request envNoRows none "delete everything" =
      Except.ok (JVal.obj [("status", JVal.str "error"),
        ("message", JVal.str ("未知的任務: " ++ pyRepr (JVal.obj
          [("tool", JVal.str "none"), ("args", JVal.obj []),
           ("error", JVal.str "無法解析需求")])))], []) ∧
    reportingCalls ([] : List Call) = 0 ∧ ([] : List Call).length = 0 :=
  unknown_tool_error_envelope envNoRows none "delete everything" _ rfl rfl rfl rfl rfl

/-- Mock environment whose retrieval agent's `query_db` answers with the
chain-unavailable error envelope of retrieval_agents.py (key `error`, no
`message`). -/
def envChainDown : Env :=
  ⟨fun _ _ _ => JVal.ctr (query_db false (Except.ok JVal.null) "p")⟩

/-- C8 counterexample: a `query_db` routing whose agent reply is the
`query_db` error envelope `\x7bstatus: "error", error: ...\x7d` is passed
through unchanged, so the caller receives an error envelope with no
string-valued `message` field. -/
theorem query_error_envelope_missing_message :
    process_request envChainDown
      (some (JVal.obj [("tool", JVal.str "query_db"), ("args", JVal.obj [])])) "p" =
      Except.ok (JVal.obj [("status", JVal.str "error"),
                           ("error", JVal.str "SQLDatabaseChain 未初始化成功")],
                 [⟨Target.retrieval, "query_db", JVal.obj [("prompt", JVal.str "p")]⟩]) ∧
    hasStatusError (JVal.obj [("status", JVal.str "error"),
        ("error", JVal.str "SQLDatabaseChain 未初始化成功")]) = true ∧
    hasStrMessage (JVal.obj [("status", JVal.str "error"),
        ("error", JVal.str "SQLDatabaseChain 未初始化成功")]) = false :=
  ⟨rfl, rfl, rfl⟩

/-- C8 amended: every error envelope the coordinator itself constructs
carries a string-valued `message`; an error envelope surfaced without one
can only be an agent payload passed through unchanged by the `query_db` or
`generate_excel_report` branch. -/
theorem coordinator_error_envelopes_have_message
    (env : Env) (parsed : Option JVal) (prompt : String)
    (out : JVal) (tr : List Call)
    (h : process_request env parsed prompt = Except.ok (out, tr))
    (herr : hasStatusError out = true) :
    hasStrMessage out = true ∨
    (∃ a, out = structuredOrSelf (env.call Target.retrieval "query_db" a)) ∨
    (∃ a, out = structuredOrSelf (env.call Target.reporting "generate_excel_report" a)) := by
  cases hp : interpret_with_llm parsed
  case obj d =>
    simp only [process_request, hp] at h
    split at h
    · -- ingest_csv branch: status is "ok"
      rw [Except.ok.injEq, Prod.mk.injEq] at h
      obtain ⟨hout, -⟩ := h
      subst hout
      simp [hasStatusError, pyGet, isStr] at herr
    · split at h
      · -- query_db branch
        split at h
        · exact Except.noConfusion h
        · rw [Except.ok.injEq, Prod.mk.injEq] at h
          obtain ⟨hout, -⟩ := h
          exact Or.inr (Or.inl ⟨_, hout.symm⟩)
        · split at h
          · rw [Except.ok.injEq, Prod.mk.injEq] at h
            obtain ⟨hout, -⟩ := h
            exact Or.inr (Or.inl ⟨_, hout.symm⟩)
          · exact Except.noConfusion h
      · split at h
        · -- list_returns branch: status is "ok"
          split at h
          · exact Except.noConfusion h
          · rw [Except.ok.injEq, Prod.mk.injEq] at h
            obtain ⟨hout, -⟩ := h
            subst hout
            simp [hasStatusError, pyGet, isStr] at herr
        · split at h
          · -- generate_report branch
            split at h
            · rw [Except.ok.injEq, Prod.mk.injEq] at h
              obtain ⟨hout, -⟩ := h
              exact Or.inr (Or.inr ⟨_, hout.symm⟩)
            · rw [Except.ok.injEq, Prod.mk.injEq] at h
              obtain ⟨hout, -⟩ := h
              subst hout
              exact Or.inl (by simp [hasStrMessage, pyGet])
          · -- unknown tool branch
            rw [Except.ok.injEq, Prod.mk.injEq] at h
            obtain ⟨hout, -⟩ := h
            subst hout
            exact Or.inl (by simp [hasStrMessage, pyGet])
  all_goals (simp only [process_request, hp] at h; exact Except.noConfusion h)

/-- C8 amended witness: the unknown-instruction envelope produced for the
sentinel decision carries a string message. -/
theorem coordinator_error_envelopes_have_message_witness :
    hasStrMessage (JVal.obj [("status", JVal.str "error"),
      ("message", JVal.str ("未知的任務: " ++ pyRepr sentinelDecision))]) = true ∨
    (∃ a, JVal.obj [("status", JVal.str "error"),
      ("message", JVal.str ("未知的任務: " ++ pyRepr sentinelDecision))] =
        structuredOrSelf (envNoRows.call Target.retrieval "query_db" a)) ∨
    (∃ a, JVal.obj [("status", JVal.str "error"),
      ("message", JVal.str ("未知的任務: " ++ pyRepr sentinelDecision))] =
        structuredOrSelf (envNoRows.call Target.reporting "generate_excel_report" a)) :=
  coordinator_error_envelopes_have_message envNoRows none "x"
    (JVal.obj [("status", JVal.str "error"),
      ("message", JVal.str ("未知的任務: " ++ pyRepr sentinelDecision))]) [] rfl rfl

/-- C9: the startup reconciliation triggers the ingestion tool zero times
when the store reports a positive row count, at most once otherwise, and
across two invocations with a store reporting non-zero rows at the second
the total ingestion call count is at most one. -/
theorem init_db_ingest_at_most_once (s1 s2 : Except String Nat) (n m : Nat) :
    (s1 = Except.ok n → 0 < n → ingestCalls (init_db s1) = 0) ∧
    ingestCalls (init_db s1) ≤ 1 ∧
    (s2 = Except.ok m → 0 < m →
      ingestCalls (init_db s1) + ingestCalls (init_db s2) ≤ 1) := by
  have hzero : ∀ (s : Except String Nat) (k : Nat),
      s = Except.ok k → 0 < k → ingestCalls (init_db s) = 0 := by
    intro s k hs hk
    subst hs
    simp only [init_db]
    rw [if_pos hk]
    rfl
  have hle : ∀ s : Except String Nat, ingestCalls (init_db s) ≤ 1 := by
    intro s
    cases s with
    | ok k =>
        by_cases hk : k > 0 <;> simp [init_db, hk] <;> decide
    | error e =>
        simp [init_db]
        decide
  refine ⟨fun hs hn => hzero s1 n hs hn, hle s1, fun hs hm => ?_⟩
  rw [hzero s2 m hs hm]
  simpa using hle s1

/-- C9 witness: a failed count query on the first run, a store with five
rows on the second. -/
theorem init_db_ingest_at_most_once_witness :
    ingestCalls (init_db (Except.ok 5)) = 0 ∧
    ingestCalls (init_db (Except.error "no such table: returns")) ≤ 1 ∧
    ingestCalls (init_db (Except.error "no such table: returns")) +
      ingestCalls (init_db (Except.ok 5)) ≤ 1 :=
  ⟨(init_db_ingest_at_most_once (Except.ok 5) (Except.ok 5) 5 5).1 rfl (by decide),
   (init_db_ingest_at_most_once (Except.error "no such table: returns")
     (Except.ok 5) 5 5).2.1,
   (init_db_ingest_at_most_once (Except.error "no such table: returns")
     (Except.ok 5) 5 5).2.2 rfl (by decide)⟩

/-- Length of the ingestion insertion loop output. -/
theorem insertRows_length (fresh : Nat → String) (i : Nat) (csv : List CsvRecord) :
    (insertRows fresh i csv).length = csv.length := by
  induction csv generalizing i with
  | nil => rfl
  | cons r rs ih => simp [insertRows, ih]

/-- When every record carries an `order_id`, the insertion loop does not
depend on the generated identifiers. -/
theorem insertRows_indep (f g : Nat → String) (i j : Nat) (csv : List CsvRecord)
    (h : ∀ r ∈ csv, r.order_id ≠ none) :
    insertRows f i csv = insertRows g j csv := by
  induction csv generalizing i j with
  | nil => rfl
  | cons r rs ih =>
      simp only [insertRows]
      have hr := h r (by simp)
      obtain ⟨s, hs⟩ := Option.ne_none_iff_exists'.mp hr
      rw [show rowOfRecord (f i) r = rowOfRecord (g j) r from by
            simp [rowOfRecord, hs],
          ih (i + 1) (j + 1) (fun x hx => h x (by simp [hx]))]

/-- A CSV whose single record has no `order_id` column value. -/
def csvNoId : List CsvRecord := [⟨none, "widget", "storeA", "2024-01-01"⟩]

/-- C10 counterexample: on a CSV record without `order_id`, each run stores
a freshly generated random identifier, so running `ingest_csv` twice on the
same file does not leave the table in the same state as running it once. -/
theorem ingest_csv_not_idempotent_random_ids :
    (ingest_csv true (Except.ok csvNoId) (fun _ => "aaaa") []).1 =
      [⟨"aaaa", "widget", "storeA", "2024-01-01"⟩] ∧
    (ingest_csv true (Except.ok csvNoId) (fun _ => "bbbb")
        ((ingest_csv true (Except.ok csvNoId) (fun _ => "aaaa") []).1)).1 =
      [⟨"bbbb", "widget", "storeA", "2024-01-01"⟩] ∧
    ([⟨"bbbb", "widget", "storeA", "2024-01-01"⟩] : List RowRec) ≠
      [⟨"aaaa", "widget", "storeA", "2024-01-01"⟩] :=
  ⟨rfl, rfl, by decide⟩

/-- C10 amended: `ingest_csv` deletes every existing row before inserting
one row per CSV record: on success the resulting table does not depend on
the previous table, has exactly one row per CSV record, and
`rows_inserted` equals the CSV row count; a second run on the same file
never duplicates rows and reproduces the same table whenever every record
carries an `order_id` (otherwise only the freshly generated identifiers may
differ); on a missing file or a read error the table is unchanged. -/
theorem ingest_csv_replace_semantics
    (csv : List CsvRecord) (fresh f1 f2 : Nat → String)
    (t1 t2 : List RowRec) (e : String) :
    ((ingest_csv true (Except.ok csv) fresh t1).1 =
       (ingest_csv true (Except.ok csv) fresh t2).1) ∧
    ((ingest_csv true (Except.ok csv) fresh t1).1.length = csv.length) ∧
    ((ingest_csv true (Except.ok csv) fresh t1).2 =
       JVal.obj [("status", JVal.str "ok"), ("rows_inserted", JVal.num csv.length)]) ∧
    ((∀ r ∈ csv, r.order_id ≠ none) →
      (ingest_csv true (Except.ok csv) f2
          ((ingest_csv true (Except.ok csv) f1 t1).1)).1 =
        (ingest_csv true (Except.ok csv) f1 t1).1) ∧
    ((ingest_csv false (Except.ok csv) fresh t1).1 = t1) ∧
    ((ingest_csv true (Except.error e) fresh t1).1 = t1) := by
  refine ⟨rfl, ?_, rfl, fun h => ?_, rfl, rfl⟩
  · simp [ingest_csv, insertRows_length]
  · simpa [ingest_csv] using insertRows_indep f2 f1 0 0 csv h

/-- A CSV whose single record carries an `order_id`. -/
def csvWithIds : List CsvRecord := [⟨some "A1", "widget", "storeA", "2024-01-01"⟩]

/-- C10 amended witness: with `order_id` present, a double run with
different generated identifiers reproduces the single-run table. -/
theorem ingest_csv_replace_semantics_witness :
    (ingest_csv true (Except.ok csvWithIds) (fun _ => "bbbb")
        ((ingest_csv true (Except.ok csvWithIds) (fun _ => "aaaa") []).1)).1 =
      (ingest_csv true (Except.ok csvWithIds) (fun _ => "aaaa") []).1 ∧
    (ingest_csv true (Except.ok csvWithIds) (fun _ => "aaaa") []).1.length =
      csvWithIds.length :=
  ⟨(ingest_csv_replace_semantics csvWithIds (fun _ => "aaaa") (fun _ => "aaaa")
      (fun _ => "bbbb") [] [] "").2.2.2.1 (by decide),
   (ingest_csv_replace_semantics csvWithIds (fun _ => "aaaa") (fun _ => "aaaa")
      (fun _ => "bbbb") [] [] "").2.1⟩
